import Mathlib

/-!
Verification of the libretro glue layer of melonDS DS
(`src/libretro/libretro.cpp`) against its natural-language specification.

The embedding below translates the multiplayer-relay platform callbacks
(`MP_SendPacket`, `MP_SendCmd`, `MP_SendReply`, `MP_SendAck`,
`MP_RecvPacket`, `MP_RecvHostPacket`, `MP_RecvReplies`), the lifecycle
entry points (`retro_init`, `retro_deinit`, `retro_load_game`,
`retro_load_game_special`, `retro_unload_game`) and the fault boundaries
(`retro_reset`, `HardwareContextReset`) into Lean.  The `CoreState`
methods they invoke (`MpSendPacket`, `MpNextPacket`, `MpNextPacketBlock`,
`MpActive`, `LoadGame`, ...) live outside the given sources and are
treated as oracles: the sequence of packets an oracle would yield is
passed in as an explicit list, a boolean send outcome as an explicit
function, and so on.  Machine integers are `Nat` with explicit `% 2^w`
where the C code can wrap.
-/

namespace MelonDsDs

/-- The packet type tag.  The source constructs packets with `Other`,
`Cmd` and `Reply`; the data model also names an `Ack` tag, which the
source never constructs (see `MP_SendAck`). -/
inductive PacketType where
  | Other : PacketType
  | Cmd : PacketType
  | Reply : PacketType
  | Ack : PacketType
deriving DecidableEq, Repr

/-- `MelonDsDs::Packet`: one datagram with payload bytes, a 64-bit
timestamp, an association id and a type tag.  `Data()` is `data`,
`Length()` is `data.length`, `Timestamp()` is `timestamp`, `Aid()` is
`aid`, `PacketType()` is `ptype`. -/
structure Packet where
  data : List Nat
  timestamp : Nat
  aid : Nat
  ptype : PacketType
deriving DecidableEq, Repr

/-- `u64` modulus. -/
def U64 : Nat := 2 ^ 64

/-- `u16` modulus. -/
def U16 : Nat := 2 ^ 16

/-- The staleness threshold `timestamp - 32` computed in C `u64`
arithmetic: it wraps modulo `2^64` when `timestamp < 32`. -/
def staleThreshold (timestamp : Nat) : Nat :=
  (timestamp + U64 - 32) % U64

/-- The test applied to each packet in `MP_RecvReplies`' loop:
a packet is skipped as stale when `p.Timestamp() < (timestamp - 32)`. -/
def isStale (timestamp : Nat) (p : Packet) : Bool :=
  p.timestamp < staleThreshold timestamp

/-- `ret |= 1 << p.Aid()` with `ret` a `u16`: the `int` result of the
shift-or is converted back to 16 bits. -/
def orBit (ret aid : Nat) : Nat :=
  (ret ||| (1 <<< aid)) % U16

/-- The `while((ret & aidmask) != aidmask)` loop of
`Platform::MP_RecvReplies`, with the successive results of
`MpNextPacketBlock` given as `packets`; the list ending corresponds to
`MpNextPacketBlock` returning an empty optional (relay deactivated).
Stale packets and non-`Reply` packets are `continue`d over; a fresh
`Reply` contributes `1 << aid` to `ret`.  (The `memcpy` into the
caller's `packets` buffer and the `loops` counter have no effect on the
returned mask and are not modelled.) -/
def recvRepliesLoop (timestamp aidmask : Nat) (packets : List Packet)
    (ret : Nat) : Nat :=
  if (ret &&& aidmask) = aidmask then ret
  else
    match packets with
    | [] => ret
    | p :: rest =>
      if isStale timestamp p then
        recvRepliesLoop timestamp aidmask rest ret
      else if p.ptype ≠ PacketType.Reply then
        recvRepliesLoop timestamp aidmask rest ret
      else
        recvRepliesLoop timestamp aidmask rest (orBit ret p.aid)

/-- `Platform::MP_RecvReplies(packets, timestamp, aidmask)`: returns 0
immediately when `MpActive()` is false, otherwise runs the collection
loop starting from `ret = 0`. -/
def MP_RecvReplies (mpActive : Bool) (timestamp aidmask : Nat)
    (packets : List Packet) : Nat :=
  if !mpActive then 0
  else recvRepliesLoop timestamp aidmask packets 0

/-- A packet that the loop counts toward the reply mask: of `Reply` type
and not stale. -/
def freshReply (timestamp : Nat) (p : Packet) : Bool :=
  !isStale timestamp p && p.ptype = PacketType.Reply

theorem land_eq_right_iff (a b : Nat) :
    a &&& b = b ↔ ∀ i, b.testBit i = true → a.testBit i = true := by
  constructor
  · intro h i hi
    have h' := congrArg (fun x => Nat.testBit x i) h
    simp only [Nat.testBit_land, hi, Bool.and_true] at h'
    exact h'
  · intro h
    apply Nat.eq_of_testBit_eq
    intro i
    rw [Nat.testBit_land]
    cases hb : b.testBit i with
    | false => simp
    | true => simp [h i hb]

theorem orBit_testBit (ret aid i : Nat) (hi : i < 16) :
    (orBit ret aid).testBit i = (ret.testBit i || decide (i = aid)) := by
  unfold orBit U16
  rw [Nat.testBit_mod_two_pow, Nat.testBit_lor, Nat.shiftLeft_eq, one_mul,
    Nat.testBit_two_pow]
  rw [decide_eq_true hi, Bool.true_and]
  have hsymm : decide (aid = i) = decide (i = aid) :=
    decide_eq_decide.mpr ⟨Eq.symm, Eq.symm⟩
  rw [hsymm]

theorem testBit_lt_sixteen {mask i : Nat} (hmask : mask < U16)
    (hb : mask.testBit i = true) : i < 16 := by
  by_contra hge
  have h2 : mask < 2 ^ i := lt_of_lt_of_le hmask
    (Nat.pow_le_pow_right (by norm_num) (le_of_not_lt hge))
  rw [Nat.testBit_eq_false_of_lt h2] at hb
  exact Bool.false_ne_true hb

/-- The completeness invariant of the collection loop: the returned mask
covers `aidmask` exactly when every bit of `aidmask` is already in `ret`
or is the aid of some fresh `Reply` among the remaining packets. -/
theorem recvRepliesLoop_complete_iff (ts mask : Nat) (hmask : mask < U16) :
    ∀ (ps : List Packet) (ret : Nat),
      ((recvRepliesLoop ts mask ps ret) &&& mask = mask ↔
        ∀ i, i < 16 → mask.testBit i = true →
          ret.testBit i = true ∨ ∃ p ∈ ps, freshReply ts p = true ∧ p.aid = i) := by
  intro ps
  induction ps with
  | nil =>
    intro ret
    have h0 : recvRepliesLoop ts mask [] ret = ret := by
      rw [recvRepliesLoop]; split <;> rfl
    rw [h0]
    constructor
    · intro h i _ hb
      exact Or.inl ((land_eq_right_iff ret mask).mp h i hb)
    · intro h
      apply (land_eq_right_iff ret mask).mpr
      intro i hb
      rcases h i (testBit_lt_sixteen hmask hb) hb with hr | ⟨p, hp, _, _⟩
      · exact hr
      · exact absurd hp (List.not_mem_nil p)
  | cons p rest ih =>
    intro ret
    by_cases hsat : (ret &&& mask) = mask
    · have h0 : recvRepliesLoop ts mask (p :: rest) ret = ret := by
        rw [recvRepliesLoop]; simp [hsat]
      rw [h0]
      constructor
      · intro _ i _ hb
        exact Or.inl ((land_eq_right_iff ret mask).mp hsat i hb)
      · intro _
        exact hsat
    · by_cases hfr : freshReply ts p = true
      · have hfr' : isStale ts p = false ∧ p.ptype = PacketType.Reply := by
          have h' := hfr
          unfold freshReply at h'
          simp only [Bool.and_eq_true, Bool.not_eq_true', decide_eq_true_eq] at h'
          exact h'
        have hstale : isStale ts p = false := hfr'.1
        have hrep : p.ptype = PacketType.Reply := hfr'.2
        have h0 : recvRepliesLoop ts mask (p :: rest) ret =
            recvRepliesLoop ts mask rest (orBit ret p.aid) := by
          rw [recvRepliesLoop]; simp [hsat, hstale, hrep]
        rw [h0, ih (orBit ret p.aid)]
        constructor
        · intro h i hi hb
          rcases h i hi hb with hr | ⟨q, hq, hfq, haq⟩
          · rw [orBit_testBit ret p.aid i hi, Bool.or_eq_true] at hr
            rcases hr with h1 | h2
            · exact Or.inl h1
            · exact Or.inr ⟨p, List.mem_cons_self p rest, hfr,
                (of_decide_eq_true h2).symm⟩
          · exact Or.inr ⟨q, List.mem_cons_of_mem p hq, hfq, haq⟩
        · intro h i hi hb
          rcases h i hi hb with hr | ⟨q, hq, hfq, haq⟩
          · exact Or.inl (by rw [orBit_testBit ret p.aid i hi, hr]; rfl)
          · rcases List.mem_cons.mp hq with rfl | hq'
            · exact Or.inl (by
                rw [orBit_testBit ret q.aid i hi]
                simp [haq.symm])
            · exact Or.inr ⟨q, hq', hfq, haq⟩
      · have h0 : recvRepliesLoop ts mask (p :: rest) ret =
            recvRepliesLoop ts mask rest ret := by
          by_cases hstale : isStale ts p = true
          · rw [recvRepliesLoop]; simp [hsat, hstale]
          · have hrep : p.ptype ≠ PacketType.Reply := by
              intro hc
              apply hfr
              unfold freshReply
              simp [Bool.not_eq_true] at hstale
              simp [hstale, hc]
            rw [recvRepliesLoop]
            simp only [Bool.not_eq_true] at hstale
            simp [hsat, hstale, hrep]
        rw [h0, ih ret]
        constructor
        · intro h i hi hb
          rcases h i hi hb with hr | ⟨q, hq, hfq, haq⟩
          · exact Or.inl hr
          · exact Or.inr ⟨q, List.mem_cons_of_mem p hq, hfq, haq⟩
        · intro h i hi hb
          rcases h i hi hb with hr | ⟨q, hq, hfq, haq⟩
          · exact Or.inl hr
          · rcases List.mem_cons.mp hq with rfl | hq'
            · exact absurd hfq hfr
            · exact Or.inr ⟨q, hq', hfq, haq⟩

theorem recvRepliesLoop_sat (ts mask : Nat) (ps : List Packet) (ret : Nat)
    (hsat : (ret &&& mask) = mask) :
    recvRepliesLoop ts mask ps ret = ret := by
  cases ps <;> (rw [recvRepliesLoop]; simp [hsat])

theorem recvRepliesLoop_cons (ts mask : Nat) (p : Packet) (rest : List Packet)
    (ret : Nat) (hsat : (ret &&& mask) ≠ mask) :
    recvRepliesLoop ts mask (p :: rest) ret =
      if freshReply ts p = true then recvRepliesLoop ts mask rest (orBit ret p.aid)
      else recvRepliesLoop ts mask rest ret := by
  rw [recvRepliesLoop]
  by_cases hstale : isStale ts p = true
  · have hf : freshReply ts p = false := by unfold freshReply; simp [hstale]
    simp [hsat, hstale, hf]
  · by_cases hrep : p.ptype = PacketType.Reply
    · have hf : freshReply ts p = true := by
        unfold freshReply
        simp only [Bool.not_eq_true] at hstale
        simp [hstale, hrep]
      simp [hsat, hstale, hrep, hf]
    · have hf : freshReply ts p = false := by unfold freshReply; simp [hrep]
      simp [hsat, hstale, hrep, hf]

theorem recvRepliesLoop_skip (ts mask : Nat) (p : Packet)
    (hp : freshReply ts p = false) :
    ∀ (ps1 ps2 : List Packet) (ret : Nat),
      recvRepliesLoop ts mask (ps1 ++ p :: ps2) ret =
        recvRepliesLoop ts mask (ps1 ++ ps2) ret := by
  intro ps1
  induction ps1 with
  | nil =>
    intro ps2 ret
    simp only [List.nil_append]
    by_cases hsat : (ret &&& mask) = mask
    · rw [recvRepliesLoop_sat ts mask _ ret hsat, recvRepliesLoop_sat ts mask _ ret hsat]
    · rw [recvRepliesLoop_cons ts mask p ps2 ret hsat]
      simp [hp]
  | cons q ps1' ih =>
    intro ps2 ret
    by_cases hsat : (ret &&& mask) = mask
    · rw [List.cons_append, recvRepliesLoop_sat ts mask _ ret hsat,
        List.cons_append, recvRepliesLoop_sat ts mask _ ret hsat]
    · rw [List.cons_append, recvRepliesLoop_cons ts mask q _ ret hsat,
        List.cons_append, recvRepliesLoop_cons ts mask q _ ret hsat]
      by_cases hq : freshReply ts q = true
      · simp only [hq, if_pos]
        exact ih ps2 (orBit ret q.aid)
      · simp only [hq, if_neg]
        exact ih ps2 ret

/-- C2.  Each yielded packet contributes a bit exactly when it is a
`Reply` whose timestamp is not below `timestamp - 32` in wrapping `u64`
arithmetic; stale or non-`Reply` packets are skipped without ending the
loop (removing such a packet from the yielded sequence leaves the result
unchanged); and the staleness threshold wraps: for `timestamp < 32` it is
`2^64 - (32 - timestamp)`, near `2^64`, while for `timestamp ≥ 32` it is the
plain `timestamp - 32`. -/
theorem recvReplies_packet_filter :
    (∀ ts mask (ps1 ps2 : List Packet) p ret, freshReply ts p = false →
        recvRepliesLoop ts mask (ps1 ++ p :: ps2) ret =
          recvRepliesLoop ts mask (ps1 ++ ps2) ret) ∧
    (∀ ts mask p (rest : List Packet) ret, (ret &&& mask) ≠ mask →
        freshReply ts p = true →
        recvRepliesLoop ts mask (p :: rest) ret =
          recvRepliesLoop ts mask rest (orBit ret p.aid)) ∧
    (∀ ts, ts < 32 → staleThreshold ts = U64 - (32 - ts)) ∧
    (∀ ts, 32 ≤ ts → ts < U64 → staleThreshold ts = ts - 32) := by
  have h64 : U64 = 18446744073709551616 := by norm_num [U64]
  refine ⟨?_, ?_, ?_, ?_⟩
  · intro ts mask ps1 ps2 p ret hp
    exact recvRepliesLoop_skip ts mask p hp ps1 ps2 ret
  · intro ts mask p rest ret hsat hp
    rw [recvRepliesLoop_cons ts mask p rest ret hsat]
    simp [hp]
  · intro ts hts
    unfold staleThreshold
    rw [h64]
    have hlt' : ts + 18446744073709551616 - 32 < 18446744073709551616 := by omega
    rw [Nat.mod_eq_of_lt hlt']
    omega
  · intro ts hts hlt
    unfold staleThreshold
    rw [h64] at hlt ⊢
    have heq : ts + 18446744073709551616 - 32 = (ts - 32) + 18446744073709551616 := by
      omega
    rw [heq, Nat.add_mod_right]
    have hlt' : ts - 32 < 18446744073709551616 := by omega
    rw [Nat.mod_eq_of_lt hlt']

/-- Witness for `recvReplies_packet_filter`: a stale `Reply` (timestamp 50
against threshold 68) is skipped; a fresh one (timestamp 99) flips its aid
bit; the threshold for `timestamp = 0` wraps to `2^64 - 32` and for
`timestamp = 100` is 68. -/
theorem recvReplies_packet_filter_witness :
    freshReply 100 ⟨[], 50, 2, PacketType.Reply⟩ = false ∧
    recvRepliesLoop 100 3
        [⟨[], 50, 2, PacketType.Reply⟩, ⟨[], 99, 1, PacketType.Reply⟩] 0 =
      recvRepliesLoop 100 3 [⟨[], 99, 1, PacketType.Reply⟩] 0 ∧
    ((0 : Nat) &&& 3) ≠ 3 ∧
    freshReply 100 ⟨[], 99, 1, PacketType.Reply⟩ = true ∧
    recvRepliesLoop 100 3 [⟨[], 99, 1, PacketType.Reply⟩] 0 =
      recvRepliesLoop 100 3 [] (orBit 0 1) ∧
    (0 : Nat) < 32 ∧ staleThreshold 0 = U64 - 32 ∧
    (32 : Nat) ≤ 100 ∧ (100 : Nat) < U64 ∧ staleThreshold 100 = 68 :=
  ⟨by decide,
   recvReplies_packet_filter.1 100 3 [] [⟨[], 99, 1, PacketType.Reply⟩]
     ⟨[], 50, 2, PacketType.Reply⟩ 0 (by decide),
   by decide,
   by decide,
   recvReplies_packet_filter.2.1 100 3 ⟨[], 99, 1, PacketType.Reply⟩ [] 0
     (by decide) (by decide),
   by decide,
   recvReplies_packet_filter.2.2.1 0 (by decide),
   by decide,
   by norm_num [U64],
   recvReplies_packet_filter.2.2.2 100 (by decide) (by norm_num [U64])⟩

/-- C3.  `MP_RecvReplies` returns 0 immediately when the relay is not
active; whenever `MpNextPacketBlock` yields an empty optional (which
deactivation causes) the loop returns at once with exactly the bits
collected so far; and the result can be a strict subset of `aidmask`
(here: one fresh `Reply` from aid 1 against mask `0b11` gives `0b10`).
Termination on deactivation is structural: the loop is a total function
of the finite sequence of yielded packets. -/
theorem MP_RecvReplies_deactivation_behavior :
    (∀ ts mask (ps : List Packet), MP_RecvReplies false ts mask ps = 0) ∧
    (∀ ts mask ret, recvRepliesLoop ts mask [] ret = ret) ∧
    (MP_RecvReplies true 100 3 [⟨[], 100, 1, PacketType.Reply⟩] = 2 ∧
     (2 : Nat) &&& 3 = 2 ∧ (2 : Nat) ≠ 3) := by
  refine ⟨fun ts mask ps => rfl, fun ts mask ret => ?_, by decide⟩
  rw [recvRepliesLoop]
  split <;> rfl

/-- C1.  Counterexample: the result of `MP_RecvReplies` is NOT always a
subset of `aidmask`.  With `aidmask = 0b10` and a fresh `Reply` from aid 2
arriving before the fresh `Reply` from aid 1, the loop ORs in bit 2 even
though it is outside the mask: the call returns `0b110 = 6`, and
`6 &&& ~0b10 = 4 ≠ 0`.  Moreover the result differs from `aidmask` even
though a fresh `Reply` was received for every aid of the mask, refuting
the claimed equality condition as well. -/
theorem MP_RecvReplies_not_subset_of_aidmask :
    MP_RecvReplies true 100 2
        [⟨[], 100, 2, PacketType.Reply⟩, ⟨[], 100, 1, PacketType.Reply⟩] = 6 ∧
    6 &&& (U16 - 1 - 2) ≠ 0 ∧
    (6 : Nat) ≠ 2 ∧
    freshReply 100 ⟨[], 100, 1, PacketType.Reply⟩ = true := by
  refine ⟨by decide, by decide, by decide, by decide⟩

/-- C1 (amended): the result of `MP_RecvReplies(packets, timestamp,
aidmask)` need not be a subset of `aidmask` (any consumed fresh `Reply`
contributes its aid bit, inside the mask or not); what does hold is that
the result COVERS `aidmask` (`result &&& aidmask = aidmask`) exactly when,
before the relay deactivated, a `Reply`-type packet with timestamp at
least `timestamp - 32` (in wrapping 64-bit arithmetic) was received for
every aid whose bit is set in `aidmask`. -/
theorem MP_RecvReplies_covers_aidmask_iff (ts mask : Nat) (hmask : mask < U16)
    (ps : List Packet) :
    (MP_RecvReplies true ts mask ps) &&& mask = mask ↔
      ∀ i, i < 16 → mask.testBit i = true →
        ∃ p ∈ ps, freshReply ts p = true ∧ p.aid = i := by
  unfold MP_RecvReplies
  rw [Bool.not_true, if_neg (by simp)]
  rw [recvRepliesLoop_complete_iff ts mask hmask ps 0]
  constructor
  · intro h i hi hb
    rcases h i hi hb with hr | hex
    · rw [Nat.zero_testBit] at hr
      exact absurd hr (by simp)
    · exact hex
  · intro h i hi hb
    exact Or.inr (h i hi hb)

/-- Witness for `MP_RecvReplies_covers_aidmask_iff` at `mask = 2`,
`ts = 100`, one fresh `Reply` from aid 1. -/
theorem MP_RecvReplies_covers_aidmask_iff_witness :
    2 < U16 ∧
    (MP_RecvReplies true 100 2 [⟨[], 100, 1, PacketType.Reply⟩]) &&& 2 = 2 :=
  ⟨by decide,
   (MP_RecvReplies_covers_aidmask_iff 100 2 (by decide)
     [⟨[], 100, 1, PacketType.Reply⟩]).mpr (by decide)⟩

/-! ## Lifecycle entry points -/

/-- Observable calls made by the lifecycle entry points, in program
order. -/
inductive LifecycleEvent where
  | taskQueueReset : LifecycleEvent
  | taskQueueWait : LifecycleEvent
  | taskQueueDeinit : LifecycleEvent
  | engineDestroyed : LifecycleEvent
deriving DecidableEq, Repr

/-- Modelled from the spec: `CoreState::UnloadGame` (defined outside the
given sources) "destroys the engine instance"; its observable effect here
is the engine destruction. -/
def coreUnloadGameEvents : List LifecycleEvent :=
  [LifecycleEvent.engineDestroyed]

/-- `retro_unload_game`: calls `retro::task::reset()`, then
`retro::task::wait()`, then `retro::task::deinit()`, then
`Core.UnloadGame()`. -/
def retro_unload_game_trace : List LifecycleEvent :=
  [LifecycleEvent.taskQueueReset, LifecycleEvent.taskQueueWait,
   LifecycleEvent.taskQueueDeinit] ++ coreUnloadGameEvents

/-- C4.  In `retro_unload_game` the task runner is stopped in the order
reset, wait, deinit, and all three precede the engine destruction
performed by `CoreState::UnloadGame`, so every background task's cleanup
happens before the engine is destroyed. -/
theorem retro_unload_game_task_order :
    retro_unload_game_trace =
      [LifecycleEvent.taskQueueReset, LifecycleEvent.taskQueueWait,
       LifecycleEvent.taskQueueDeinit, LifecycleEvent.engineDestroyed] ∧
    retro_unload_game_trace.indexOf LifecycleEvent.taskQueueReset <
      retro_unload_game_trace.indexOf LifecycleEvent.taskQueueWait ∧
    retro_unload_game_trace.indexOf LifecycleEvent.taskQueueWait <
      retro_unload_game_trace.indexOf LifecycleEvent.taskQueueDeinit ∧
    retro_unload_game_trace.indexOf LifecycleEvent.taskQueueDeinit <
      retro_unload_game_trace.indexOf LifecycleEvent.engineDestroyed := by
  refine ⟨rfl, by decide, by decide, by decide⟩

/-! ## Error/fault boundary -/

/-- The exception hierarchy relevant to the catch cascades:
`MelonDsDs::opengl_exception` and `MelonDsDs::emulator_exception` (both
carrying `what()` and `user_message()`), any other `std::exception`
(carrying only `what()`), and a non-`std::exception` throw. -/
inductive ExcKind where
  | openglExc : ExcKind
  | emulatorExc : ExcKind
  | stdExc : ExcKind
  | unknownExc : ExcKind
deriving DecidableEq, Repr

structure Exc where
  kind : ExcKind
  what : String
  userMessage : String
deriving DecidableEq, Repr

/-- Host-visible effects of a fault handler. -/
inductive FaultEvent where
  | logError : String → FaultEvent
  | setErrorMessage : String → FaultEvent
  | shutdown : FaultEvent
deriving DecidableEq, Repr

def isLogRecord : FaultEvent → Bool
  | FaultEvent.logError _ => true
  | _ => false

def isErrorMessage : FaultEvent → Bool
  | FaultEvent.setErrorMessage _ => true
  | _ => false

/-- The catch cascade of `retro_reset`: `opengl_exception` and
`emulator_exception` are logged via `retro::error`, shown via
`retro::set_error_message` and followed by `retro::shutdown`; a plain
`std::exception` and the catch-all branch only set the message (the
catch-all with a fixed string) and shut down, with no log call. -/
def resetFaultEvents (e : Exc) : List FaultEvent :=
  match e.kind with
  | ExcKind.openglExc =>
      [FaultEvent.logError e.what, FaultEvent.setErrorMessage e.userMessage,
       FaultEvent.shutdown]
  | ExcKind.emulatorExc =>
      [FaultEvent.logError e.what, FaultEvent.setErrorMessage e.userMessage,
       FaultEvent.shutdown]
  | ExcKind.stdExc =>
      [FaultEvent.setErrorMessage e.what, FaultEvent.shutdown]
  | ExcKind.unknownExc =>
      [FaultEvent.setErrorMessage "An unknown error has occurred.",
       FaultEvent.shutdown]

/-- `retro_reset`: runs `Core.Reset()` (outcome passed in as `r`); on
success no fault events are produced, on a throw the catch cascade runs.
The function is total: no exception propagates to the host. -/
def retro_reset_trace (r : Except Exc Unit) : List FaultEvent :=
  match r with
  | Except.ok _ => []
  | Except.error e => resetFaultEvents e

/-- The catch cascade of `MelonDsDs::HardwareContextReset` around
`Core.ResetRenderState()`: identical to `retro_reset`'s except for the
catch-all message. -/
def hardwareContextResetFaultEvents (e : Exc) : List FaultEvent :=
  match e.kind with
  | ExcKind.openglExc =>
      [FaultEvent.logError e.what, FaultEvent.setErrorMessage e.userMessage,
       FaultEvent.shutdown]
  | ExcKind.emulatorExc =>
      [FaultEvent.logError e.what, FaultEvent.setErrorMessage e.userMessage,
       FaultEvent.shutdown]
  | ExcKind.stdExc =>
      [FaultEvent.setErrorMessage e.what, FaultEvent.shutdown]
  | ExcKind.unknownExc =>
      [FaultEvent.setErrorMessage
        "OpenGL context initialization failed with an unknown error. Please report this issue.",
       FaultEvent.shutdown]

/-- `MelonDsDs::HardwareContextReset` (declared `noexcept`): total in the
outcome of `Core.ResetRenderState()`. -/
def HardwareContextReset_trace (r : Except Exc Unit) : List FaultEvent :=
  match r with
  | Except.ok _ => []
  | Except.error e => hardwareContextResetFaultEvents e

/-- C5.  Counterexample: a plain `std::exception` thrown out of
`Core.Reset()` inside `retro_reset` is caught, but only converted into a
user-visible error message and a shutdown request — the handler for
`std::exception` (and the catch-all) performs no `retro::error` log call,
so no log record is produced, contrary to the claimed three-part
conversion.  The same holds in `HardwareContextReset`. -/
theorem retro_reset_std_exception_no_log :
    retro_reset_trace (Except.error ⟨ExcKind.stdExc, "bad state", ""⟩) =
      [FaultEvent.setErrorMessage "bad state", FaultEvent.shutdown] ∧
    (retro_reset_trace (Except.error ⟨ExcKind.stdExc, "bad state", ""⟩)).any
      isLogRecord = false ∧
    (HardwareContextReset_trace (Except.error ⟨ExcKind.stdExc, "bad state", ""⟩)).any
      isLogRecord = false :=
  ⟨rfl, rfl, rfl⟩

/-- C5 (amended): every exception thrown out of `Core.Reset()` in
`retro_reset` and out of `Core.ResetRenderState()` in
`HardwareContextReset` is caught at the boundary (the handlers are total:
nothing propagates) and converted into a user-visible error message on
the host error channel followed by a shutdown request; the
melonDS-specific exceptions (`opengl_exception`, `emulator_exception`)
additionally produce a log record, while a plain `std::exception` or an
unknown throw produces none. -/
theorem fault_boundary_events (e : Exc) :
    ((retro_reset_trace (Except.error e)).any isErrorMessage = true ∧
     FaultEvent.shutdown ∈ retro_reset_trace (Except.error e) ∧
     (HardwareContextReset_trace (Except.error e)).any isErrorMessage = true ∧
     FaultEvent.shutdown ∈ HardwareContextReset_trace (Except.error e)) ∧
    (e.kind = ExcKind.openglExc ∨ e.kind = ExcKind.emulatorExc →
      (retro_reset_trace (Except.error e)).any isLogRecord = true ∧
      (HardwareContextReset_trace (Except.error e)).any isLogRecord = true) ∧
    (e.kind = ExcKind.stdExc ∨ e.kind = ExcKind.unknownExc →
      (retro_reset_trace (Except.error e)).any isLogRecord = false ∧
      (HardwareContextReset_trace (Except.error e)).any isLogRecord = false) := by
  obtain ⟨k, w, u⟩ := e
  cases k <;>
    simp [retro_reset_trace, HardwareContextReset_trace, resetFaultEvents,
      hardwareContextResetFaultEvents, isErrorMessage, isLogRecord]

/-- Witness for `fault_boundary_events` at an `opengl_exception` and the
log-record dichotomy. -/
theorem fault_boundary_events_witness :
    (retro_reset_trace (Except.error ⟨ExcKind.openglExc, "glErr", "GL failed"⟩)).any
      isLogRecord = true ∧
    (retro_reset_trace (Except.error ⟨ExcKind.openglExc, "glErr", "GL failed"⟩)).any
      isErrorMessage = true ∧
    FaultEvent.shutdown ∈
      retro_reset_trace (Except.error ⟨ExcKind.openglExc, "glErr", "GL failed"⟩) :=
  ⟨((fault_boundary_events ⟨ExcKind.openglExc, "glErr", "GL failed"⟩).2.1
      (Or.inl rfl)).1,
   (fault_boundary_events ⟨ExcKind.openglExc, "glErr", "GL failed"⟩).1.1,
   (fault_boundary_events ⟨ExcKind.openglExc, "glErr", "GL failed"⟩).1.2.1⟩

/-! ## Content loading -/

/-- One `retro_game_info` content descriptor. -/
structure RetroGameInfo where
  path : Option String
  size : Nat
deriving DecidableEq, Repr

/-- Modelled from the spec: the numeric tag `MELONDSDS_GAME_TYPE_NDS` is
defined in a header outside the given sources; only its identity matters
here, so the value is a placeholder. -/
def MELONDSDS_GAME_TYPE_NDS : Nat := 0

/-- `retro_load_game(info)`: builds `std::span(info, 1)` when `info` is
non-null and an empty span otherwise, and forwards
`(MELONDSDS_GAME_TYPE_NDS, content)` to `Core.LoadGame`.  The result pair
is the arguments `LoadGame` receives. -/
def retro_load_game_call (info : Option RetroGameInfo) :
    Nat × List RetroGameInfo :=
  (MELONDSDS_GAME_TYPE_NDS,
   match info with
   | some g => [g]
   | none => [])

/-- `retro_load_game_special(type, info, num)`: forwards
`(type, std::span(info, num))` to `Core.LoadGame` unchanged. -/
def retro_load_game_special_call (gtype : Nat) (content : List RetroGameInfo) :
    Nat × List RetroGameInfo :=
  (gtype, content)

/-- C6.  The standard load path always passes game type
`MELONDSDS_GAME_TYPE_NDS` and a content span of length 1 (non-null
`info`) or 0 (null `info`), never two or more items; an N-item list
reaches `LoadGame` only through `retro_load_game_special`, which forwards
its arguments unchanged.  (A "2-item standard load" therefore cannot
happen, making the spec's rejection clause vacuous on this path.) -/
theorem retro_load_game_content_shape (info : Option RetroGameInfo) :
    (retro_load_game_call info).1 = MELONDSDS_GAME_TYPE_NDS ∧
    (retro_load_game_call info).2.length = (if info.isSome then 1 else 0) ∧
    (retro_load_game_call info).2.length < 2 ∧
    (∀ gtype content,
      retro_load_game_special_call gtype content = (gtype, content)) := by
  cases info <;> simp [retro_load_game_call, retro_load_game_special_call]

/-! ## Core state construction -/

/-- The placement-new buffer `CoreStateBuffer`: either zeroed or holding
a live `CoreState`. -/
structure CoreStateBuf where
  constructed : Bool
deriving DecidableEq, Repr

/-- Modelled from the spec: `CoreState::IsInitialized()` (defined outside
the given sources) reports whether the placement-constructed `CoreState`
is live — true once the constructor has run, false while the buffer is
zeroed. -/
def IsInit (s : CoreStateBuf) : Bool := s.constructed

/-- `retro_init`: `retro_assert(!Core.IsInitialized())`, zero the buffer,
placement-construct the `CoreState`, `retro_assert(Core.IsInitialized())`.
`none` models an assertion/contract violation. -/
def retro_init_model (s : CoreStateBuf) : Option CoreStateBuf :=
  if IsInit s then none
  else
    let s' : CoreStateBuf := ⟨true⟩
    if IsInit s' then some s' else none

/-- `retro_deinit`: placement-destroy the `CoreState`, re-zero the
buffer, `retro_assert(!Core.IsInitialized())`. -/
def retro_deinit_model (_s : CoreStateBuf) : Option CoreStateBuf :=
  let s' : CoreStateBuf := ⟨false⟩
  if IsInit s' then none else some s'

/-- C7.  Calling `retro_init` with a live `CoreState` violates the entry
assertion (no silent reconstruction); on a zeroed buffer it constructs
the `CoreState` and establishes `IsInitialized` at exit; `retro_deinit`
always destroys the `CoreState`, re-establishing `!IsInitialized`, after
which `retro_init` succeeds again. -/
theorem retro_init_deinit_contract :
    (∀ s, IsInit s = true → retro_init_model s = none) ∧
    (∀ s, IsInit s = false →
      retro_init_model s = some ⟨true⟩ ∧ IsInit ⟨true⟩ = true) ∧
    (∀ s, retro_deinit_model s = some ⟨false⟩ ∧ IsInit ⟨false⟩ = false) ∧
    (∀ s s', retro_deinit_model s = some s' → retro_init_model s' = some ⟨true⟩) := by
  refine ⟨?_, ?_, ?_, ?_⟩
  · intro s h
    simp [retro_init_model, h]
  · intro s h
    simp [retro_init_model, IsInit, h]
    exact h
  · intro s
    exact ⟨rfl, rfl⟩
  · intro s s' h
    have hs' : s' = ⟨false⟩ := by
      simpa [retro_deinit_model, IsInit] using h.symm
    rw [hs']
    rfl

/-- Witness for `retro_init_deinit_contract`: double init on a live core
is an assertion violation; init on a zeroed buffer succeeds. -/
theorem retro_init_deinit_contract_witness :
    (IsInit ⟨true⟩ = true ∧ retro_init_model ⟨true⟩ = none) ∧
    (IsInit ⟨false⟩ = false ∧ retro_init_model ⟨false⟩ = some ⟨true⟩) ∧
    (retro_deinit_model ⟨true⟩ = some ⟨false⟩ ∧
     retro_init_model ⟨false⟩ = some ⟨true⟩) :=
  ⟨⟨rfl, retro_init_deinit_contract.1 ⟨true⟩ rfl⟩,
   ⟨rfl, (retro_init_deinit_contract.2.1 ⟨false⟩ rfl).1⟩,
   ⟨(retro_init_deinit_contract.2.2.1 ⟨true⟩).1,
    retro_init_deinit_contract.2.2.2 ⟨true⟩ ⟨false⟩
      (retro_init_deinit_contract.2.2.1 ⟨true⟩).1⟩⟩

/-! ## Multiplayer send/receive callbacks

`CoreState::MpSendPacket` is passed in as the oracle `send`; the results
of `CoreState::MpNextPacket` / `MpNextPacketBlock` are passed in as the
optional `o_p`. -/

/-- `MelonDsDs::Packet(data, len, timestamp, aid, type)`: captures the
`len` bytes starting at `data` (the byte range `[data, data+len)` of the
caller's buffer is `bytes.take len`). -/
def Packet.make (bytes : List Nat) (len timestamp aid : Nat)
    (t : PacketType) : Packet :=
  ⟨bytes.take len, timestamp, aid, t⟩

/-- `Platform::MP_SendPacket`: wraps the bytes in an `Other`-type packet
with aid 0; returns `len` when `Core.MpSendPacket` succeeds, else 0. -/
def MP_SendPacket (send : Packet → Bool) (bytes : List Nat)
    (len timestamp : Nat) : Nat :=
  if send (Packet.make bytes len timestamp 0 PacketType.Other) then len else 0

/-- `Platform::MP_SendCmd`: as `MP_SendPacket` with type `Cmd`. -/
def MP_SendCmd (send : Packet → Bool) (bytes : List Nat)
    (len timestamp : Nat) : Nat :=
  if send (Packet.make bytes len timestamp 0 PacketType.Cmd) then len else 0

/-- `Platform::MP_SendReply`: `retro_assert(aid < 16)` (modelled as
`none` on violation), then a `Reply`-type packet carrying `aid`. -/
def MP_SendReply (send : Packet → Bool) (bytes : List Nat)
    (len timestamp aid : Nat) : Option Nat :=
  if 16 ≤ aid then none
  else some
    (if send (Packet.make bytes len timestamp aid PacketType.Reply) then len
     else 0)

/-- `Platform::MP_SendAck`: the source forwards an `Ack` as a `Cmd`-type
packet with aid 0 — byte-for-byte the body of `MP_SendCmd`. -/
def MP_SendAck (send : Packet → Bool) (bytes : List Nat)
    (len timestamp : Nat) : Nat :=
  if send (Packet.make bytes len timestamp 0 PacketType.Cmd) then len else 0

/-- `DeconstructPacket(data, timestamp, o_p)`: the new contents of the
caller's `data` buffer, the new `*timestamp`, and the return value.  An
empty optional leaves both outputs untouched and returns 0; otherwise
`Length()` bytes are copied over the front of the buffer, `*timestamp`
is set, and `Length()` is returned. -/
def DeconstructPacket (data : List Nat) (timestamp : Nat)
    (o_p : Option Packet) : List Nat × Nat × Nat :=
  match o_p with
  | none => (data, timestamp, 0)
  | some p => (p.data ++ data.drop p.data.length, p.timestamp, p.data.length)

/-- `Platform::MP_RecvPacket`: deconstructs `Core.MpNextPacket()`. -/
def MP_RecvPacket (data : List Nat) (timestamp : Nat)
    (o_p : Option Packet) : List Nat × Nat × Nat :=
  DeconstructPacket data timestamp o_p

/-- `Platform::MP_RecvHostPacket`: deconstructs
`Core.MpNextPacketBlock()`. -/
def MP_RecvHostPacket (data : List Nat) (timestamp : Nat)
    (o_p : Option Packet) : List Nat × Nat × Nat :=
  DeconstructPacket data timestamp o_p

/-- C8.  `MP_SendAck` submits a packet of type `Cmd` (aid 0), not a
distinct `Ack` type: the packet it builds is the very packet
`MP_SendCmd` builds, and for every send oracle and input its return
value coincides with `MP_SendCmd`'s. -/
theorem MP_SendAck_uses_cmd_type (send : Packet → Bool) (bytes : List Nat)
    (len timestamp : Nat) :
    (Packet.make bytes len timestamp 0 PacketType.Cmd).ptype =
      PacketType.Cmd ∧
    (Packet.make bytes len timestamp 0 PacketType.Cmd).ptype ≠
      PacketType.Ack ∧
    MP_SendAck send bytes len timestamp = MP_SendCmd send bytes len timestamp :=
  ⟨rfl, fun h => PacketType.noConfusion h, rfl⟩

/-- C9.  Each send callback returns the full `len` when
`Core.MpSendPacket` accepts the constructed packet and 0 when it
rejects it; the outcome is reported only via this return value (the
functions are total — nothing is thrown). -/
theorem mp_send_return_values (send : Packet → Bool) (bytes : List Nat)
    (len timestamp aid : Nat) (haid : aid < 16) :
    (send (Packet.make bytes len timestamp 0 PacketType.Other) = true →
      MP_SendPacket send bytes len timestamp = len) ∧
    (send (Packet.make bytes len timestamp 0 PacketType.Other) = false →
      MP_SendPacket send bytes len timestamp = 0) ∧
    (send (Packet.make bytes len timestamp 0 PacketType.Cmd) = true →
      MP_SendCmd send bytes len timestamp = len ∧
      MP_SendAck send bytes len timestamp = len) ∧
    (send (Packet.make bytes len timestamp 0 PacketType.Cmd) = false →
      MP_SendCmd send bytes len timestamp = 0 ∧
      MP_SendAck send bytes len timestamp = 0) ∧
    (send (Packet.make bytes len timestamp aid PacketType.Reply) = true →
      MP_SendReply send bytes len timestamp aid = some len) ∧
    (send (Packet.make bytes len timestamp aid PacketType.Reply) = false →
      MP_SendReply send bytes len timestamp aid = some 0) := by
  have hlt : ¬(16 ≤ aid) := not_le.mpr haid
  refine ⟨?_, ?_, ?_, ?_, ?_, ?_⟩ <;> intro h <;>
    simp [MP_SendPacket, MP_SendCmd, MP_SendAck, MP_SendReply, h, hlt]

/-- Witness for `mp_send_return_values` under the constant-true and
constant-false oracles. -/
theorem mp_send_return_values_witness :
    (3 : Nat) < 16 ∧
    MP_SendPacket (fun _ => true) [7, 8] 2 5 = 2 ∧
    MP_SendPacket (fun _ => false) [7, 8] 2 5 = 0 ∧
    MP_SendReply (fun _ => true) [7, 8] 2 5 3 = some 2 :=
  ⟨by decide,
   (mp_send_return_values (fun _ => true) [7, 8] 2 5 3 (by decide)).1 rfl,
   (mp_send_return_values (fun _ => false) [7, 8] 2 5 3 (by decide)).2.1 rfl,
   (mp_send_return_values (fun _ => true) [7, 8] 2 5 3 (by decide)).2.2.2.2.1 rfl⟩

/-- C10.  When no packet is available, `MP_RecvPacket` and
`MP_RecvHostPacket` return 0 and leave the caller's buffer and the
timestamp output unchanged; when a packet is present, exactly
`Length()` bytes are copied over the front of the buffer (the rest of
the buffer and its length are untouched), the timestamp output is set to
the packet's timestamp, and `Length()` is returned — identically for
both callbacks. -/
theorem mp_recv_packet_effects (data : List Nat) (timestamp : Nat)
    (p : Packet) (h : p.data.length ≤ data.length) :
    (MP_RecvPacket data timestamp none = (data, timestamp, 0) ∧
     MP_RecvHostPacket data timestamp none = (data, timestamp, 0)) ∧
    ((MP_RecvPacket data timestamp (some p)).1.take p.data.length = p.data ∧
     (MP_RecvPacket data timestamp (some p)).1.drop p.data.length =
       data.drop p.data.length ∧
     (MP_RecvPacket data timestamp (some p)).1.length = data.length ∧
     (MP_RecvPacket data timestamp (some p)).2.1 = p.timestamp ∧
     (MP_RecvPacket data timestamp (some p)).2.2 = p.data.length) ∧
    MP_RecvHostPacket data timestamp (some p) =
      MP_RecvPacket data timestamp (some p) := by
  refine ⟨⟨rfl, rfl⟩, ⟨?_, ?_, ?_, rfl, rfl⟩, rfl⟩
  · simp [MP_RecvPacket, DeconstructPacket, List.take_left]
  · simp [MP_RecvPacket, DeconstructPacket, List.drop_left]
  · simp [MP_RecvPacket, DeconstructPacket]
    omega

/-- Witness for `mp_recv_packet_effects` on a 3-byte buffer and a 2-byte
packet. -/
theorem mp_recv_packet_effects_witness :
    (2 : Nat) ≤ 3 ∧
    MP_RecvPacket [1, 2, 3] 0 none = ([1, 2, 3], 0, 0) ∧
    (MP_RecvPacket [1, 2, 3] 0 (some ⟨[9, 9], 7, 1, PacketType.Reply⟩)).1.take 2 =
      [9, 9] ∧
    (MP_RecvPacket [1, 2, 3] 0 (some ⟨[9, 9], 7, 1, PacketType.Reply⟩)).2.1 = 7 :=
  ⟨by decide,
   (mp_recv_packet_effects [1, 2, 3] 0 ⟨[9, 9], 7, 1, PacketType.Reply⟩
     (by decide)).1.1,
   (mp_recv_packet_effects [1, 2, 3] 0 ⟨[9, 9], 7, 1, PacketType.Reply⟩
     (by decide)).2.1.1,
   (mp_recv_packet_effects [1, 2, 3] 0 ⟨[9, 9], 7, 1, PacketType.Reply⟩
     (by decide)).2.1.2.2.2.1⟩

end MelonDsDs
